import Mathlib

/-!
# Verification of the AIS data aggregator core (src/main.js)

A shallow embedding, in Lean 4, of the stream/session core of the AIS data
aggregator. The program is single-threaded and event-driven: handlers run to
completion between asynchronous suspension points (`await`), so each
synchronous segment is embedded as a pure Lean function on an explicit state,
and the effect of each awaited operation (HTTP round-trip, login, timer) is
supplied as an explicit outcome parameter chosen adversarially by the
environment.

JavaScript numbers appear only in equality comparisons and threshold
comparisons here, never in rounding-sensitive arithmetic, so coordinates are
modelled as `Rat` (exact values, decidable equality, no epsilon) and
timestamps as `Int` epoch milliseconds. Bearer tokens are compared only for
presence, so they are modelled as `Nat` identifiers wrapped in `Option`
(`none` = the `cmsAuthToken` global is `null`).
-/

deriving instance DecidableEq for Except

namespace AisAggregator

/-! ## Connection lifecycle state (src/main.js lines 17-27)

The module-level mutable variables that the connection lifecycle touches.
`reconnectTimer = some d` models a pending `setTimeout` handle whose delay is
`d` milliseconds; `none` models the cleared (`null`) handle. The socket object
itself, and the interval handles, are modelled by the Booleans that record
whether each timer is running. -/
structure ConnState where
  minutesWaited : Int
  isSocketOpen : Bool
  reconnectTimer : Option Nat
  reconnectAttempts : Nat
  inactivityTimerRunning : Bool
  pingTimerRunning : Bool
deriving DecidableEq

/-- The backoff delay computed by `scheduleReconnect` (src/main.js line 93):
`Math.min(30_000, 1_000 * 2 ** reconnectAttempts)`. The JavaScript value is a
float, but `1000 * 2 ** n` is exactly representable wherever it is below the
cap and the `min` makes the two semantics agree for every `n : Nat` (for large
`n` the float overflows to infinity and `min` still yields 30000). -/
def reconnectDelay (attempts : Nat) : Nat :=
  min 30000 (1000 * 2 ^ attempts)

/-- `scheduleReconnect` (src/main.js lines 88-100): a no-op while a reconnect
timer is already pending, otherwise arms one timer with the backoff delay. The
attempt counter is not touched here; it is incremented by the timer callback
when it fires (`reconnectTimerFires`). -/
def scheduleReconnect (st : ConnState) : ConnState :=
  match st.reconnectTimer with
  | some _ => st
  | none => { st with reconnectTimer := some (reconnectDelay st.reconnectAttempts) }

/-- The `setTimeout` callback inside `scheduleReconnect` (src/main.js lines
95-99): clears the timer handle, increments `reconnectAttempts`, then calls
`connect()` (which only creates a fresh socket and registers handlers, leaving
the fields modelled here unchanged). -/
def reconnectTimerFires (st : ConnState) : ConnState :=
  { st with reconnectTimer := none, reconnectAttempts := st.reconnectAttempts + 1 }

/-- `handleClose` (src/main.js lines 116-126): mark the socket closed, stop
the inactivity and keepalive timers, then call `scheduleReconnect`. -/
def handleClose (st : ConnState) : ConnState :=
  scheduleReconnect
    { st with isSocketOpen := false, inactivityTimerRunning := false,
              pingTimerRunning := false }

/-- `handleError` (src/main.js lines 128-131): log and call
`scheduleReconnect`; no state field is touched directly. -/
def handleError (st : ConnState) : ConnState :=
  scheduleReconnect st

/-! ## Inbound messages and `handleMessage` (src/main.js lines 133-149) -/

/-- A position report as extracted from `aisMessage.Message.PositionReport`
(src/main.js lines 140-142) and consumed by the persistence path. -/
structure PositionReport where
  Latitude : Rat
  Longitude : Rat
  Sog : Rat
  NavigationalStatus : Rat
  RateOfTurn : Rat
  TrueHeading : Rat
deriving DecidableEq

/-- The two observable outcomes of `JSON.parse(event.data)` followed by the
shape test `aisMessage?.Message?.PositionReport` on an inbound frame:
either the parse throws (`unparseable`), or it yields a value that does
(`parsed (some pr)`) or does not (`parsed none`, e.g. `{"foo":"bar"}`)
contain a position report. -/
inductive InboundMsg where
  | unparseable
  | parsed (report : Option PositionReport)
deriving DecidableEq

/-- The `try` body of `handleMessage` (src/main.js lines 134-145). Mutations
performed before a `throw` persist, so the body returns the state reached so
far together with either `.ok invoked` (where `invoked` records that
`persistPositionReport` was entered) or the thrown error. `JSON.parse` throws
before `minutesWaited = 0` runs; the shape test throws after it. -/
def handleMessageBody (st : ConnState) (m : InboundMsg) :
    ConnState × Except String Bool :=
  match m with
  | .unparseable => (st, .error "SyntaxError: JSON.parse")
  | .parsed r =>
    let st := { st with minutesWaited := 0 }
    match r with
    | some _ => (st, .ok true)
    | none => (st, .error "Unexpected AIS report shape")

/-- `handleMessage` (src/main.js lines 133-149): the `try` body wrapped in the
`catch` that logs and discards any error, so the handler always returns
normally. The Boolean records whether the persistence path was invoked. -/
def handleMessage (st : ConnState) (m : InboundMsg) : ConnState × Bool :=
  match handleMessageBody st m with
  | (st', .ok invoked) => (st', invoked)
  | (st', .error _) => (st', false)

/-! ## Deduplication policy (src/main.js lines 178-269)

`shouldPersistPositionReport` first checks the collection-URL configuration
and the cached token, then performs one authorized HTTP query whose outcome is
modelled by `QueryOutcome`, and finally applies the two rejection rules to the
returned documents. -/

/-- A document returned by the duplicate-check query. `createdAt = some t`
models a present, parseable timestamp of `t` epoch milliseconds; `none` covers
a missing/falsy `createdAt` as well as one that `new Date(...)` parses to
`NaN` (every comparison against `NaN` is false, exactly like the `none`
branch). `location = some xs` models a JSON array whose entries coerce via
`Number(...)` to the listed values; `none` models a non-array. -/
structure StoredDoc where
  createdAt : Option Int
  location : Option (List Rat)
deriving DecidableEq

/-- Outcome of `performAuthorizedRequest(fetchRecentLogs)` as observed by
`shouldPersistPositionReport`: the call threw (network failure or an
authentication error propagated out of `performAuthorizedRequest`), returned a
non-2xx response (`response.ok` false) — in which case `bodyRead` is the
outcome of the subsequent `await response.text()` at src/main.js line 219
(`.ok body` the body text, `.error` a rejected body read) — returned 2xx with
a body that `response.json()` cannot parse, or returned 2xx with a parsed
body whose `docs` field yields the given list (a missing/non-array `docs`
yields `[]`, src/main.js line 234). -/
inductive QueryOutcome where
  | fetchThrew
  | notOk (status : Nat) (bodyRead : Except Unit String)
  | badJson
  | ok (docs : List StoredDoc)
deriving DecidableEq

/-- `hasRecentLog` (src/main.js lines 236-242): some returned document has a
present timestamp at or after `now` minus six hours. -/
def hasRecentLog (now : Int) (docs : List StoredDoc) : Bool :=
  docs.any fun doc =>
    match doc.createdAt with
    | none => false
    | some t => decide (now - 6 * 60 * 60 * 1000 ≤ t)

/-- `hasSameLocation` (src/main.js lines 244-254): some returned document has
an array location of length at least two whose first entry equals the incoming
report's `Latitude` and whose second entry equals its `Longitude` (exact
numeric equality, `Number(x) === Number(y)`). -/
def hasSameLocation (pr : PositionReport) (docs : List StoredDoc) : Bool :=
  docs.any fun doc =>
    match doc.location with
    | some (a :: b :: _) => decide (a = pr.Latitude) && decide (b = pr.Longitude)
    | _ => false

/-- `shouldPersistPositionReport` (src/main.js lines 178-269). `hasCollectionUrl`
models whether `cmsCollectionUrl` is configured and `token` the current
`cmsAuthToken`; `now` is `Date.now()` and `q` the query outcome. The function
can itself reject: on a non-2xx response the `await response.text()` at line
219 sits outside any `try` within this function, so if that body read rejects
the rejection propagates to the caller (`.error`); the `response.json()` read
on the 2xx path is inside a `try` (lines 227-232) and fails open instead. -/
def shouldPersistPositionReport (hasCollectionUrl : Bool) (token : Option Nat)
    (now : Int) (pr : PositionReport) (q : QueryOutcome) : Except Unit Bool :=
  if !hasCollectionUrl then .ok false
  else
    match token with
    | none => .ok true
    | some _ =>
      match q with
      | .fetchThrew => .ok true
      | .notOk _ bodyRead =>
        match bodyRead with
        | .error e => .error e
        | .ok _ => .ok true
      | .badJson => .ok true
      | .ok docs =>
        if hasRecentLog now docs then .ok false
        else if hasSameLocation pr docs then .ok false
        else .ok true

/-- The location array written to the store by `persistPositionReport`
(src/main.js line 316): `[pr.Longitude, pr.Latitude]` — the source flips the
pair ("Flip lat/lon because of ais-stream peculiarity"). -/
def storedLocation (pr : PositionReport) : List Rat :=
  [pr.Longitude, pr.Latitude]

/-! ## Session manager (src/main.js lines 358-425)

The shared session state consists of the `cmsAuthToken` and `pendingCmsLogin`
globals plus the (constant) configuration flags. `pendingCmsLogin = some pid`
models the in-flight login promise, identified by `pid`; `loginRequests`
instruments the model by counting the login HTTP requests that have been
issued, and `nextPromiseId` supplies fresh promise identities. -/
structure SessionState where
  cmsAuthToken : Option Nat
  pendingCmsLogin : Option Nat
  hasLoginUrl : Bool
  hasEmail : Bool
  hasPassword : Bool
  loginRequests : Nat
  nextPromiseId : Nat
deriving DecidableEq

/-- What a call to `ensureCmsSession` gives its caller at the end of its
synchronous segment: either a value returned immediately (the cached token, or
`null` when configuration is missing), or the pending login promise to be
awaited. -/
inductive EnsureOutcome where
  | immediate (tok : Option Nat)
  | awaitLogin (pid : Nat)
deriving DecidableEq

/-- `ensureCmsSession` (src/main.js lines 399-425), up to its first suspension
point. When no login is pending it creates the login task; that task runs
synchronously through `loginToCms` up to `await fetch(cmsLoginUrl, ...)`
(src/main.js line 369), so exactly one login HTTP request is issued at
creation time, and the new promise is stored in `pendingCmsLogin` before any
other caller can run. When a login is already pending, the existing promise is
returned unchanged and no request is issued. -/
def ensureCmsSession (s : SessionState) : SessionState × EnsureOutcome :=
  match s.cmsAuthToken with
  | some t => (s, .immediate (some t))
  | none =>
    if !s.hasLoginUrl then (s, .immediate none)
    else if !s.hasEmail || !s.hasPassword then (s, .immediate none)
    else
      match s.pendingCmsLogin with
      | some pid => (s, .awaitLogin pid)
      | none =>
        ({ s with pendingCmsLogin := some s.nextPromiseId,
                  loginRequests := s.loginRequests + 1,
                  nextPromiseId := s.nextPromiseId + 1 },
         .awaitLogin s.nextPromiseId)

/-- Outcome of the login HTTP round-trip started by `loginToCms`: `success t`
when the response is 2xx and carries a `token`/`jwt` field, `failure` when the
fetch threw, the status was non-2xx, or no token field was present (all three
make `loginToCms` throw, src/main.js lines 380-392). -/
inductive LoginResult where
  | success (tok : Nat)
  | failure
deriving DecidableEq

/-- Settlement of the pending login promise (src/main.js lines 387-421): on
success `loginToCms` stores the token in `cmsAuthToken` and the task resolves
with it; on failure the task rejects. In both cases the `finally` handler
registered at creation (lines 419-421) runs before any awaiting caller and
resets `pendingCmsLogin` to `null`. The `Except` value is the single settled
value that every caller awaiting this promise receives. -/
def settleCmsLogin (s : SessionState) (res : LoginResult) :
    SessionState × Except Unit (Option Nat) :=
  match res with
  | .success tok =>
    ({ s with cmsAuthToken := some tok, pendingCmsLogin := none },
     .ok (some tok))
  | .failure => ({ s with pendingCmsLogin := none }, .error ())

/-! ## `performAuthorizedRequest` (src/main.js lines 151-176)

One invocation of `performAuthorizedRequest(requestFactory)` runs through at
most two awaited `ensureCmsSession` calls and at most two awaited
`requestFactory()` calls. The net effect of each awaited operation on the
shared state is supplied by the environment: `ensurePre` is the value of
`cmsAuthToken` after the initial `ensureCmsSession` returns (or `.error` if it
threw), `ensureRe` likewise for the re-authentication after a 401/403, and
`req1`/`req2` are the first and second `requestFactory()` outcomes (`.ok s` a
response with HTTP status `s`, `.error` a thrown fetch). -/

/-- How one invocation of `performAuthorizedRequest` can fail. -/
inductive ReqErr where
  | ensureFailure
  | missingToken
  | missingTokenAfterReauth
  | fetchFailure
deriving DecidableEq

/-- `performAuthorizedRequest` (src/main.js lines 151-176). Returns the
result delivered to the caller — `.ok s` is a returned response with status
`s`, `.error e` a thrown error — paired with the number of `requestFactory()`
invocations that were issued. -/
def performAuthorizedRequest (token0 : Option Nat)
    (ensurePre ensureRe : Except Unit (Option Nat))
    (req1 req2 : Except Unit Nat) : Except ReqErr Nat × Nat :=
  let afterEnsure : Except Unit (Option Nat) :=
    match token0 with
    | some t => .ok (some t)
    | none => ensurePre
  match afterEnsure with
  | .error _ => (.error .ensureFailure, 0)
  | .ok none => (.error .missingToken, 0)
  | .ok (some _) =>
    match req1 with
    | .error _ => (.error .fetchFailure, 1)
    | .ok status =>
      if status = 401 || status = 403 then
        match ensureRe with
        | .error _ => (.error .ensureFailure, 1)
        | .ok none => (.error .missingTokenAfterReauth, 1)
        | .ok (some _) =>
          match req2 with
          | .error _ => (.error .fetchFailure, 2)
          | .ok status2 => (.ok status2, 2)
      else (.ok status, 1)

/-! ## Persistence path (src/main.js lines 271-336) -/

/-- The constant configuration read by the persistence path. -/
structure CmsConfig where
  hasCollectionUrl : Bool
  hasLoginUrl : Bool
  hasEmail : Bool
  hasPassword : Bool
deriving DecidableEq

/-- Terminal outcome of one `persistPositionReport` call. `dedupCheckThrew`
is the catch at src/main.js lines 297-300: `shouldPersistPositionReport`
rejected, the error is logged and the report dropped. -/
inductive PersistOutcome where
  | missingHost
  | missingCreds
  | authError
  | missingToken
  | dedupCheckThrew
  | skippedDuplicate
  | posted (status : Nat)
  | postFailed (status : Nat)
  | postThrew
deriving DecidableEq

/-- `persistPositionReport` (src/main.js lines 271-336). `ensureEff` is the
value of `cmsAuthToken` after `await ensureCmsSession()` returns (covering
whatever other tasks ran during that suspension), or `.error` if it threw;
`q` is the duplicate-check query outcome and `postEff` the POST outcome.
Between the `if (!cmsAuthToken)` guard (line 289) and the synchronous entry of
`shouldPersistPositionReport` — including its own token check (line 184) —
there is no suspension point, so both read the same token value; the second
component records that value at the moment the duplicate check is invoked
(`none` if it never is). -/
def persistPositionReport (cfg : CmsConfig)
    (ensureEff : Except Unit (Option Nat)) (now : Int) (pr : PositionReport)
    (q : QueryOutcome) (postEff : Except Unit Nat) :
    PersistOutcome × Option (Option Nat) :=
  if !cfg.hasCollectionUrl || !cfg.hasLoginUrl then (.missingHost, none)
  else if !cfg.hasEmail || !cfg.hasPassword then (.missingCreds, none)
  else
    match ensureEff with
    | .error _ => (.authError, none)
    | .ok none => (.missingToken, none)
    | .ok (some t) =>
      let tokenAtCheck : Option Nat := some t
      match shouldPersistPositionReport cfg.hasCollectionUrl tokenAtCheck now pr q
      with
      | .error _ => (.dedupCheckThrew, some tokenAtCheck)
      | .ok false => (.skippedDuplicate, some tokenAtCheck)
      | .ok true =>
        match postEff with
        | .error _ => (.postThrew, some tokenAtCheck)
        | .ok status =>
          if 200 ≤ status ∧ status < 300 then (.posted status, some tokenAtCheck)
          else (.postFailed status, some tokenAtCheck)

end AisAggregator

namespace AisAggregator

/-- C6: the reconnect delay is `min(30000, 1000·2^n)` with `delay(0)=1000`,
`delay(5)=30000`, `delay(10)=30000`, monotonically non-decreasing in the
attempt count and never above 30000 ms. -/
theorem c6_reconnectDelay_spec :
    reconnectDelay 0 = 1000 ∧ reconnectDelay 5 = 30000 ∧
    reconnectDelay 10 = 30000 ∧
    (∀ n : Nat, reconnectDelay n = min 30000 (1000 * 2 ^ n)) ∧
    (∀ n : Nat, reconnectDelay n ≤ reconnectDelay (n + 1)) ∧
    (∀ n : Nat, reconnectDelay n ≤ 30000) := by
  refine ⟨by decide, by decide, by decide, fun n => rfl, fun n => ?_, fun n => ?_⟩
  · exact min_le_min (Nat.le_refl _)
      (Nat.mul_le_mul_left 1000
        (Nat.pow_le_pow_right (by decide) (Nat.le_succ n)))
  · exact Nat.min_le_left _ _

/-- Helper: `scheduleReconnect` never touches the attempt counter. -/
theorem scheduleReconnect_attempts (st : ConnState) :
    (scheduleReconnect st).reconnectAttempts = st.reconnectAttempts := by
  unfold scheduleReconnect
  cases st.reconnectTimer <;> rfl

/-- Helper: `scheduleReconnect` leaves the state unchanged when a timer is
already pending, and always leaves a pending timer behind. -/
theorem scheduleReconnect_pending (st : ConnState) :
    (st.reconnectTimer.isSome = true → scheduleReconnect st = st) ∧
    (scheduleReconnect st).reconnectTimer.isSome = true := by
  unfold scheduleReconnect
  cases h : st.reconnectTimer <;> simp [h]

/-- C7: at most one reconnect timer is ever pending — calling
`scheduleReconnect` while a timer is pending is a no-op (no second timer, same
delay), scheduling is idempotent, and the attempt counter is incremented
exactly once per scheduled reconnect that fires (`reconnectTimerFires`), never
by the disconnect (`handleClose`) or error (`handleError`) signals that
request scheduling. -/
theorem c7_single_reconnect_timer (st : ConnState) :
    (st.reconnectTimer.isSome = true → scheduleReconnect st = st) ∧
    scheduleReconnect (scheduleReconnect st) = scheduleReconnect st ∧
    (scheduleReconnect st).reconnectAttempts = st.reconnectAttempts ∧
    (handleClose st).reconnectAttempts = st.reconnectAttempts ∧
    (handleError st).reconnectAttempts = st.reconnectAttempts ∧
    (reconnectTimerFires st).reconnectAttempts = st.reconnectAttempts + 1 := by
  refine ⟨(scheduleReconnect_pending st).1, ?_, scheduleReconnect_attempts st,
    scheduleReconnect_attempts _, scheduleReconnect_attempts st, rfl⟩
  exact (scheduleReconnect_pending (scheduleReconnect st)).1
    (scheduleReconnect_pending st).2

/-- Witness for C7 at a concrete state with a pending 1000 ms timer. -/
theorem c7_single_reconnect_timer_witness :
    scheduleReconnect ⟨0, false, some 1000, 3, false, false⟩ =
      ⟨0, false, some 1000, 3, false, false⟩ :=
  (c7_single_reconnect_timer ⟨0, false, some 1000, 3, false, false⟩).1 (by decide)

/-- C8 counterexample: the message `{"foo":"bar"}` parses as JSON but has no
position-report shape; on a state whose inactivity counter is 60, the handler
does NOT leave the connection state unchanged — it resets `minutesWaited` to 0
(src/main.js line 136 runs before the shape test at line 140). -/
theorem c8_counterexample :
    (handleMessage ⟨60, true, none, 0, true, true⟩ (.parsed none)).1 ≠
      ⟨60, true, none, 0, true, true⟩ ∧
    (handleMessage ⟨60, true, none, 0, true, true⟩ (.parsed none)).1.minutesWaited
      = 0 := by
  decide

/-- C8 (amended): a message that fails JSON parsing leaves the connection
state fully unchanged, does not invoke the persistence path, and does not
throw out of the handler; a message that parses but lacks the position-report
shape resets the inactivity counter to 0 but changes nothing else, does not
invoke the persistence path, and does not throw out of the handler (the
`catch` in `handleMessage` absorbs the error, so the handler always returns
normally). -/
theorem c8_malformed_message_effect (st : ConnState) :
    handleMessage st .unparseable = (st, false) ∧
    handleMessage st (.parsed none) = ({ st with minutesWaited := 0 }, false) := by
  unfold handleMessage handleMessageBody
  exact ⟨rfl, rfl⟩

/-- C3: evaluation at the failing input. The incoming report has Latitude 1
and Longitude 2, so `persistPositionReport` writes its location to the store
as `[2, 1]` (`storedLocation`). A history document carrying exactly that
stored pair, created 10 hours ago (inside the 12-hour query window, outside
the 6-hour recency window), does NOT trigger the identical-location rule:
`shouldPersistPositionReport` still allows persistence, because the comparison
at src/main.js lines 250-253 reads the pair in `[Latitude, Longitude]` order,
the reverse of the order the program writes at line 316. -/
theorem c3_identical_location_order_mismatch :
    storedLocation ⟨1, 2, 0, 0, 0, 0⟩ = [2, 1] ∧
    shouldPersistPositionReport true (some 5) 0 ⟨1, 2, 0, 0, 0, 0⟩
      (.ok [⟨some (-36000000), some (storedLocation ⟨1, 2, 0, 0, 0, 0⟩)⟩]) =
      .ok true := by
  decide

/-- C4: the recency rule — if any document returned by the duplicate-check
query has a present `createdAt` within the last six hours of `now`, the
report is rejected, whatever its coordinates. -/
theorem c4_recency_rule (tok : Nat) (now : Int) (pr : PositionReport)
    (docs : List StoredDoc) (d : StoredDoc) (t : Int)
    (hd : d ∈ docs) (hc : d.createdAt = some t)
    (h1 : now - 6 * 60 * 60 * 1000 ≤ t) (_h2 : t ≤ now) :
    shouldPersistPositionReport true (some tok) now pr (.ok docs) = .ok false := by
  have hr : hasRecentLog now docs = true := by
    unfold hasRecentLog
    rw [List.any_eq_true]
    exact ⟨d, hd, by rw [hc]; exact decide_eq_true h1⟩
  unfold shouldPersistPositionReport
  simp [hr]

/-- Witness for C4: a document created one hour before `now = 0` forces
rejection. -/
theorem c4_recency_rule_witness :
    shouldPersistPositionReport true (some 1) 0 ⟨0, 0, 0, 0, 0, 0⟩
      (.ok [⟨some (-3600000), none⟩]) = .ok false :=
  c4_recency_rule 1 0 ⟨0, 0, 0, 0, 0, 0⟩ [⟨some (-3600000), none⟩]
    ⟨some (-3600000), none⟩ (-3600000) (List.mem_singleton.mpr rfl) rfl
    (by decide) (by decide)

/-- C5 counterexample: a non-2xx query response whose body read rejects. The
`await response.text()` at src/main.js line 219 is outside any `try` within
`shouldPersistPositionReport`, so the function does NOT return allow — it
rejects, and `persistPositionReport` (catch at lines 297-300) drops the
report instead of proceeding to persistence. -/
theorem c5_counterexample :
    shouldPersistPositionReport true (some 1) 0 ⟨0, 0, 0, 0, 0, 0⟩
        (.notOk 500 (.error ())) ≠ .ok true ∧
    (persistPositionReport ⟨true, true, true, true⟩ (.ok (some 1)) 0
        ⟨0, 0, 0, 0, 0, 0⟩ (.notOk 500 (.error ())) (.ok 201)).1 =
      .dedupCheckThrew := by
  decide

/-- C5 (amended): deduplication fails open — with the collection URL
configured, a missing cached token, a thrown query, a non-2xx response whose
body read succeeds, and an unparseable 2xx body each yield allow; on a
non-2xx response whose body read (`await response.text()`, line 219) rejects,
`shouldPersistPositionReport` instead propagates the rejection (and the
caller drops the report); and every `false` verdict is explained by the
missing collection URL or by one of the two dedup rules. -/
theorem c5_fail_open (tok : Nat) (status : Nat) (body : String) (now : Int)
    (pr : PositionReport) (q : QueryOutcome) :
    shouldPersistPositionReport true none now pr q = .ok true ∧
    shouldPersistPositionReport true (some tok) now pr .fetchThrew = .ok true ∧
    shouldPersistPositionReport true (some tok) now pr
        (.notOk status (.ok body)) = .ok true ∧
    shouldPersistPositionReport true (some tok) now pr .badJson = .ok true ∧
    shouldPersistPositionReport true (some tok) now pr
        (.notOk status (.error ())) = .error () ∧
    (∀ (hasUrl : Bool) (token : Option Nat),
      shouldPersistPositionReport hasUrl token now pr q = .ok false →
      hasUrl = false ∨ ∃ docs, q = .ok docs ∧
        (hasRecentLog now docs = true ∨ hasSameLocation pr docs = true)) := by
  refine ⟨rfl, rfl, rfl, rfl, rfl, ?_⟩
  intro hasUrl token h
  cases hasUrl with
  | false => exact Or.inl rfl
  | true =>
    right
    cases token with
    | none => simp [shouldPersistPositionReport] at h
    | some t =>
      cases q with
      | fetchThrew => simp [shouldPersistPositionReport] at h
      | notOk s b =>
        rcases b with u | body' <;> simp [shouldPersistPositionReport] at h
      | badJson => simp [shouldPersistPositionReport] at h
      | ok docs =>
        refine ⟨docs, rfl, ?_⟩
        cases hrb : hasRecentLog now docs with
        | true => exact Or.inl rfl
        | false =>
          cases hsb : hasSameLocation pr docs with
          | true => exact Or.inr rfl
          | false =>
            exfalso
            unfold shouldPersistPositionReport at h
            simp [hrb, hsb] at h

/-- Witness for C5: applying the refusal-explanation conjunct at the
unconfigured-store refusal. -/
theorem c5_fail_open_witness :
    false = false ∨ ∃ docs, QueryOutcome.fetchThrew = QueryOutcome.ok docs ∧
      (hasRecentLog 0 docs = true ∨
        hasSameLocation ⟨0, 0, 0, 0, 0, 0⟩ docs = true) :=
  (c5_fail_open 1 500 "body" 0 ⟨0, 0, 0, 0, 0, 0⟩ .fetchThrew).2.2.2.2.2 false
    none (by decide)

/-- C1: `performAuthorizedRequest` issues at most two `requestFactory` calls;
a second call happens only when the first returned status 401 or 403; after a
401/403, once the credential is re-ensured, the retried call's response is
returned to the caller as-is (even another 401/403) with no third call; and
if re-ensuring yields no credential the invocation fails with the
missing-token-after-re-authentication error. -/
theorem c1_performAuthorizedRequest_single_retry (token0 : Option Nat)
    (ensurePre ensureRe : Except Unit (Option Nat))
    (req1 req2 : Except Unit Nat) :
    (performAuthorizedRequest token0 ensurePre ensureRe req1 req2).2 ≤ 2 ∧
    ((performAuthorizedRequest token0 ensurePre ensureRe req1 req2).2 = 2 →
      ∃ s, req1 = .ok s ∧ (s = 401 ∨ s = 403)) ∧
    (∀ s t s2, req1 = .ok s → ensureRe = .ok (some t) → req2 = .ok s2 →
      (s = 401 ∨ s = 403) →
      1 ≤ (performAuthorizedRequest token0 ensurePre ensureRe req1 req2).2 →
      performAuthorizedRequest token0 ensurePre ensureRe req1 req2 =
        (.ok s2, 2)) ∧
    (∀ s, req1 = .ok s → ensureRe = .ok none → (s = 401 ∨ s = 403) →
      1 ≤ (performAuthorizedRequest token0 ensurePre ensureRe req1 req2).2 →
      (performAuthorizedRequest token0 ensurePre ensureRe req1 req2).1 =
        .error .missingTokenAfterReauth) := by
  refine ⟨?_, ?_, ?_, ?_⟩
  · rcases token0 with _ | t0 <;> rcases ensurePre with u | (_ | t1) <;>
      rcases req1 with v | s1 <;> rcases ensureRe with w | (_ | t2) <;>
        rcases req2 with x | s2 <;>
          simp only [performAuthorizedRequest] <;>
            (try split) <;> omega
  · intro h2
    rcases req1 with v | s1
    · exfalso
      rcases token0 with _ | t0 <;> rcases ensurePre with u | (_ | t1) <;>
        simp [performAuthorizedRequest] at h2
    · refine ⟨s1, rfl, ?_⟩
      by_cases h401 : s1 = 401 ∨ s1 = 403
      · exact h401
      · exfalso
        push_neg at h401
        rcases token0 with _ | t0 <;> rcases ensurePre with u | (_ | t1) <;>
          rcases ensureRe with w | (_ | t2) <;> rcases req2 with x | s2 <;>
            simp [performAuthorizedRequest, h401.1, h401.2] at h2
  · rintro s t s2 rfl rfl rfl h401 hcount
    rcases token0 with _ | t0
    · rcases ensurePre with u | (_ | t1)
      · simp [performAuthorizedRequest] at hcount
      · simp [performAuthorizedRequest] at hcount
      · rcases h401 with rfl | rfl <;> rfl
    · rcases h401 with rfl | rfl <;> rfl
  · rintro s rfl rfl h401 hcount
    rcases token0 with _ | t0
    · rcases ensurePre with u | (_ | t1)
      · simp [performAuthorizedRequest] at hcount
      · simp [performAuthorizedRequest] at hcount
      · rcases h401 with rfl | rfl <;> rfl
    · rcases h401 with rfl | rfl <;> rfl

/-- Witness for C1: a cached token, a 401 on the first call, a successful
re-authentication and a 403 on the retry — two calls, and the retry's 403 is
returned as-is. -/
theorem c1_performAuthorizedRequest_single_retry_witness :
    performAuthorizedRequest (some 7) (.ok none) (.ok (some 8)) (.ok 401)
      (.ok 403) = (.ok 403, 2) :=
  (c1_performAuthorizedRequest_single_retry (some 7) (.ok none) (.ok (some 8))
      (.ok 401) (.ok 403)).2.2.1 401 8 403 rfl rfl rfl (Or.inl rfl) (by decide)

/-- C2: login is single-flight. From an unauthenticated state with no pending
login, a first `ensureCmsSession` issues exactly one login request; a second
call made while that login is still pending changes nothing (no second login
request) and both callers are handed the same promise, so both receive the
result of the same shared attempt. -/
theorem c2_single_flight_login (s : SessionState)
    (htok : s.cmsAuthToken = none) (hurl : s.hasLoginUrl = true)
    (hem : s.hasEmail = true) (hpw : s.hasPassword = true)
    (hpend : s.pendingCmsLogin = none) :
    (ensureCmsSession (ensureCmsSession s).1).1 = (ensureCmsSession s).1 ∧
    (ensureCmsSession s).1.loginRequests = s.loginRequests + 1 ∧
    ∃ p, (ensureCmsSession s).2 = .awaitLogin p ∧
      (ensureCmsSession (ensureCmsSession s).1).2 = .awaitLogin p := by
  refine ⟨?_, ?_, s.nextPromiseId, ?_, ?_⟩ <;>
    simp [ensureCmsSession, htok, hurl, hem, hpw, hpend]

/-- Witness for C2 at the fresh unauthenticated state. -/
theorem c2_single_flight_login_witness :
    (ensureCmsSession (ensureCmsSession ⟨none, none, true, true, true, 0, 0⟩).1).1
        = (ensureCmsSession ⟨none, none, true, true, true, 0, 0⟩).1 ∧
    (ensureCmsSession ⟨none, none, true, true, true, 0, 0⟩).1.loginRequests = 1 ∧
    ∃ p, (ensureCmsSession ⟨none, none, true, true, true, 0, 0⟩).2 =
        .awaitLogin p ∧
      (ensureCmsSession (ensureCmsSession ⟨none, none, true, true, true, 0, 0⟩).1).2
        = .awaitLogin p :=
  c2_single_flight_login ⟨none, none, true, true, true, 0, 0⟩ rfl rfl rfl rfl rfl

/-- C10: the pending-login reference is cleared whenever the login attempt
settles, on success and on failure alike; and after a failed attempt settles,
a subsequent `ensureCmsSession` while unauthenticated starts a fresh login
(one new login request, a new promise) — a failed login never blocks future
authentication. -/
theorem c10_pending_login_cleared (s : SessionState) (res : LoginResult) :
    (settleCmsLogin s res).1.pendingCmsLogin = none ∧
    (res = .failure → s.cmsAuthToken = none → s.hasLoginUrl = true →
      s.hasEmail = true → s.hasPassword = true →
      (ensureCmsSession (settleCmsLogin s res).1).1.loginRequests =
          s.loginRequests + 1 ∧
        (ensureCmsSession (settleCmsLogin s res).1).2 =
          .awaitLogin s.nextPromiseId) := by
  constructor
  · cases res <;> rfl
  · rintro rfl htok hurl hem hpw
    constructor <;> simp [settleCmsLogin, ensureCmsSession, htok, hurl, hem, hpw]

/-- Witness for C10: a failed login settles with a pending promise cleared,
and the next call starts attempt number two. -/
theorem c10_pending_login_cleared_witness :
    (settleCmsLogin ⟨none, some 3, true, true, true, 1, 4⟩ .failure).1.pendingCmsLogin
        = none ∧
    (ensureCmsSession
        (settleCmsLogin ⟨none, some 3, true, true, true, 1, 4⟩ .failure).1).1.loginRequests
        = 2 ∧
    (ensureCmsSession
        (settleCmsLogin ⟨none, some 3, true, true, true, 1, 4⟩ .failure).1).2
        = .awaitLogin 4 :=
  ⟨(c10_pending_login_cleared ⟨none, some 3, true, true, true, 1, 4⟩ .failure).1,
   (c10_pending_login_cleared ⟨none, some 3, true, true, true, 1, 4⟩ .failure).2
     rfl rfl rfl rfl rfl⟩

/-- C9: whenever `persistPositionReport` invokes the duplicate check, the
token read by that check is present — the missing-credential fail-open branch
of `shouldPersistPositionReport` is unreachable through the persistence path,
for every possible effect of the awaited `ensureCmsSession` (including
whatever other tasks ran during that suspension), because the token guard and
the entry of the duplicate check share one synchronous segment. -/
theorem c9_dedup_check_token_present (cfg : CmsConfig)
    (ensureEff : Except Unit (Option Nat)) (now : Int) (pr : PositionReport)
    (q : QueryOutcome) (postEff : Except Unit Nat) (tok : Option Nat)
    (h : (persistPositionReport cfg ensureEff now pr q postEff).2 = some tok) :
    tok.isSome = true := by
  unfold persistPositionReport at h
  split at h
  · simp at h
  · split at h
    · simp at h
    · rcases ensureEff with u | (_ | t)
      · simp at h
      · simp at h
      · simp only [] at h
        split at h
        · simp at h
          subst h
          rfl
        · simp at h
          subst h
          rfl
        · split at h
          · simp at h
            subst h
            rfl
          · split at h <;>
              · simp at h
                subst h
                rfl

/-- Witness for C9: with everything configured and the session producing
token 5, the duplicate check runs with token 5 cached. -/
theorem c9_dedup_check_token_present_witness : (some 5 : Option Nat).isSome = true :=
  c9_dedup_check_token_present ⟨true, true, true, true⟩ (.ok (some 5)) 0
    ⟨0, 0, 0, 0, 0, 0⟩ .fetchThrew (.ok 201) (some 5) (by decide)

end AisAggregator
